import Mathlib

/-!
Shallow embedding of the nodemailer email template service (src/index.js).

The service is a single Express application with three routes: GET /health,
POST /send-welcome-email and POST /send-email.  Each POST handler validates
its request body, assembles a mailOptions object and passes it to
transporter.sendMail; template resolution and rendering happen inside the
transport call (the handlebars plugin is registered on the transporter), so
a transport result models the whole resolve/render/send pipeline.

Handlers are embedded as pure functions of the configuration (the
environment variables read by the file), the wall-clock year, the transport
and the request body.  Each handler returns its HTTP response together with
the list of mailOptions values handed to transporter.sendMail during the
request, so that transport-invocation claims are directly statable.
-/

/-- A JavaScript value as it occurs in the mail-option contexts of this
service: a string, an integer, or the undefined value. -/
inductive JSVal where
  | str (s : String)
  | num (n : Int)
  | undef
  deriving DecidableEq, Repr

/-- Value of an optional environment variable seen as a JS value: a set
variable reads as its string, an unset one reads as undefined. -/
def envString : Option String → JSVal
  | some s => JSVal.str s
  | none => JSVal.undef

/-- Process-wide configuration: the environment variables the file reads. -/
structure Config where
  emailHost : Option String
  emailPort : Option String
  emailSecure : Option String
  emailUser : Option String
  emailPassword : Option String
  emailFrom : Option String
  emailReplyTo : Option String
  companyName : Option String
  deriving DecidableEq, Repr

/-- Line 34 of src/index.js: the transporter option
secure: process.env.EMAIL_SECURE === "true" || false. -/
def transporterSecure (cfg : Config) : Bool :=
  (cfg.emailSecure == some "true") || false

/-- JS truthiness test on a string-or-undefined field: !x holds exactly
when the field is absent (undefined) or the empty string. -/
def falsy : Option String → Bool
  | none => true
  | some s => s == ""

/-- Line 101 of src/index.js: verificationLink || "#".  The placeholder
replaces a falsy value (absent field or empty string). -/
def orHash : Option String → String
  | none => "#"
  | some s => if s == "" then "#" else s

/-- Lookup in a JS object modelled as a binding list in which a later
binding overwrites an earlier one with the same key: this is the semantics
of an object literal built by spread plus literal keys, as in
context: \x7b ...context, company_name: ..., current_year: ... \x7d. -/
def ctxLookup : List (String × JSVal) → String → Option JSVal
  | [], _ => none
  | (k2, v) :: rest, k =>
    match ctxLookup rest k with
    | some v2 => some v2
    | none => if k2 = k then some v else none

/-- The keys of a context object, in binding order (duplicates included;
a JS object built from these bindings has the deduplicated key set). -/
def ctxKeys (ctx : List (String × JSVal)) : List String :=
  ctx.map Prod.fst

/-- A mailOptions object as handed to transporter.sendMail.  The source
field named from is called fromAddr here because from is a reserved word. -/
structure MailOptions where
  fromAddr : JSVal
  «to» : String
  replyTo : JSVal
  subject : String
  template : String
  context : List (String × JSVal)
  deriving DecidableEq, Repr

/-- A parsed JSON request body: every field any handler destructures from
req.body, each absent (undefined) or present. -/
structure ReqBody where
  «to» : Option String
  username : Option String
  verificationLink : Option String
  subject : Option String
  template : Option String
  context : Option (List (String × JSVal))
  deriving DecidableEq, Repr

/-- A response body: the uniform success shape, the uniform error shape, or
the health-check shape. -/
inductive ResponseBody where
  | success (message messageId recipient : String)
  | failure (error message : String)
  | health (status message timestamp : String)
  deriving DecidableEq, Repr

/-- An HTTP response: status code and JSON body. -/
structure HttpResponse where
  status : Nat
  body : ResponseBody
  deriving DecidableEq, Repr

/-- The transport: transporter.sendMail with the handlebars plugin
registered, so it also covers template resolution and rendering.  It
returns the info.messageId string on success, or the error message string
of the thrown error on failure. -/
def Transport : Type :=
  MailOptions → Except String String

/-- Lines 93 to 105 of src/index.js: the mailOptions object of
POST /send-welcome-email.  year is new Date().getFullYear() at dispatch
time.  The handler builds this only after validation, where body.to is a
non-empty string, so the getD default is never the value used. -/
def welcomeMailOptions (cfg : Config) (year : Int) (body : ReqBody) : MailOptions :=
  { fromAddr := envString cfg.emailFrom
    «to» := body.to.getD ""
    replyTo := envString cfg.emailReplyTo
    subject := "Welcome to Our Platform!"
    template := "welcome"
    context :=
      [ ("username", envString body.username)
      , ("verification_link", JSVal.str (orHash body.verificationLink))
      , ("company_name", envString cfg.companyName)
      , ("current_year", JSVal.num year) ] }

/-- Lines 151 to 162 of src/index.js: the mailOptions object of
POST /send-email.  The caller context is spread first and the two injected
keys follow it, so they overwrite any caller binding of the same name; a
missing context field spreads to nothing. -/
def customMailOptions (cfg : Config) (year : Int) (body : ReqBody) : MailOptions :=
  { fromAddr := envString cfg.emailFrom
    «to» := body.to.getD ""
    replyTo := envString cfg.emailReplyTo
    subject := body.subject.getD ""
    template := body.template.getD ""
    context :=
      body.context.getD [] ++
      [ ("company_name", envString cfg.companyName)
      , ("current_year", JSVal.num year) ] }

/-- Lines 80 to 126 of src/index.js: the POST /send-welcome-email handler.
The second component lists the mailOptions handed to transporter.sendMail
while serving the request. -/
def sendWelcomeEmail (cfg : Config) (year : Int) (transport : Transport)
    (body : ReqBody) : HttpResponse × List MailOptions :=
  if falsy body.to || falsy body.username then
    (⟨400, ResponseBody.failure "Missing required fields"
        "Both \"to\" and \"username\" are required fields"⟩, [])
  else
    let mailOptions := welcomeMailOptions cfg year body
    match transport mailOptions with
    | Except.ok messageId =>
        (⟨200, ResponseBody.success "Welcome email sent successfully" messageId
            mailOptions.to⟩, [mailOptions])
    | Except.error e =>
        (⟨500, ResponseBody.failure "Email sending failed" e⟩, [mailOptions])

/-- Lines 138 to 183 of src/index.js: the POST /send-email handler.  The
second component lists the mailOptions handed to transporter.sendMail. -/
def sendEmail (cfg : Config) (year : Int) (transport : Transport)
    (body : ReqBody) : HttpResponse × List MailOptions :=
  if falsy body.to || falsy body.subject || falsy body.template then
    (⟨400, ResponseBody.failure "Missing required fields"
        "\"to\", \"subject\", and \"template\" are required fields"⟩, [])
  else
    let mailOptions := customMailOptions cfg year body
    match transport mailOptions with
    | Except.ok messageId =>
        (⟨200, ResponseBody.success "Email sent successfully" messageId
            mailOptions.to⟩, [mailOptions])
    | Except.error e =>
        (⟨500, ResponseBody.failure "Email sending failed" e⟩, [mailOptions])

/-- An HTTP method, as far as this service distinguishes them. -/
inductive Method where
  | get | post | put | delete | patch
  deriving DecidableEq, Repr

/-- An inbound HTTP request after JSON body parsing. -/
structure Request where
  method : Method
  path : String
  body : ReqBody
  deriving DecidableEq, Repr

/-- The whole Express application (lines 63 to 206 of src/index.js): route
dispatch over the three registered routes, with the catch-all 404 handler
for everything else.  nowIso is new Date().toISOString() at dispatch time;
the second component lists the transporter.sendMail invocations. -/
def app (cfg : Config) (year : Int) (transport : Transport) (nowIso : String)
    (req : Request) : HttpResponse × List MailOptions :=
  if req.method = Method.get ∧ req.path = "/health" then
    (⟨200, ResponseBody.health "OK" "Email service is running" nowIso⟩, [])
  else if req.method = Method.post ∧ req.path = "/send-welcome-email" then
    sendWelcomeEmail cfg year transport req.body
  else if req.method = Method.post ∧ req.path = "/send-email" then
    sendEmail cfg year transport req.body
  else
    (⟨404, ResponseBody.failure "Route not found"
        ("The route " ++ req.path ++ " does not exist")⟩, [])

/-- Sample configuration for concrete evaluations. -/
def cfg0 : Config :=
  { emailHost := some "smtp.example.com"
    emailPort := some "465"
    emailSecure := some "true"
    emailUser := some "mailer"
    emailPassword := some "hunter2"
    emailFrom := some "no-reply@example.com"
    emailReplyTo := some "support@example.com"
    companyName := some "Acme" }

/-- Configuration with every environment variable unset. -/
def cfgEmpty : Config :=
  { emailHost := none, emailPort := none, emailSecure := none
    emailUser := none, emailPassword := none, emailFrom := none
    emailReplyTo := none, companyName := none }

/-- Sample welcome request body. -/
def wbody0 : ReqBody :=
  { «to» := some "user@example.com"
    username := some "John Doe"
    verificationLink := some "https://app/verify?token=abc123"
    subject := none
    template := none
    context := none }

/-- Sample custom request body whose caller context tries to spoof the
injected keys. -/
def cbody0 : ReqBody :=
  { «to» := some "user@example.com"
    username := none
    verificationLink := none
    subject := some "Hello"
    template := some "newsletter"
    context := some [("company_name", JSVal.str "Evil Corp"),
                     ("name", JSVal.str "Ann")] }

/-- Transport double that always succeeds with message id msg-1. -/
def okTransport : Transport := fun _ => Except.ok "msg-1"

/-- Transport double that always fails with a fixed detail string. -/
def errTransport : Transport :=
  fun _ => Except.error "Invalid login: 535 Authentication failed"

/-- Looking a key up in an appended binding list tries the later bindings
first; the earlier part matters only when they do not bind the key. -/
theorem ctxLookup_append (xs ys : List (String × JSVal)) (k : String) :
    ctxLookup (xs ++ ys) k =
      match ctxLookup ys k with
      | some v => some v
      | none => ctxLookup xs k := by
  induction xs with
  | nil =>
      simp only [List.nil_append]
      cases ctxLookup ys k <;> simp [ctxLookup]
  | cons p rest ih =>
      obtain ⟨k2, v⟩ := p
      simp only [List.cons_append, ctxLookup]
      rw [List.append_eq, ih]
      cases ctxLookup ys k <;> cases ctxLookup rest k <;> rfl

/-- Appending the two injected bindings after any caller bindings makes the
lookup of either injected key return the injected value. -/
theorem ctxLookup_injected (xs : List (String × JSVal)) (c y : JSVal) :
    ctxLookup (xs ++ [("company_name", c), ("current_year", y)]) "company_name" = some c ∧
    ctxLookup (xs ++ [("company_name", c), ("current_year", y)]) "current_year" = some y := by
  constructor <;> rw [ctxLookup_append] <;> simp [ctxLookup]

/-- The welcome context binds the two injected keys to the injected values. -/
theorem welcome_ctx_injected (cfg : Config) (year : Int) (body : ReqBody) :
    ctxLookup (welcomeMailOptions cfg year body).context "company_name" =
      some (envString cfg.companyName) ∧
    ctxLookup (welcomeMailOptions cfg year body).context "current_year" =
      some (JSVal.num year) := by
  constructor <;> simp [welcomeMailOptions, ctxLookup]

/-- The custom context binds the two injected keys to the injected values,
whatever the caller context contains. -/
theorem custom_ctx_injected (cfg : Config) (year : Int) (body : ReqBody) :
    ctxLookup (customMailOptions cfg year body).context "company_name" =
      some (envString cfg.companyName) ∧
    ctxLookup (customMailOptions cfg year body).context "current_year" =
      some (JSVal.num year) := by
  exact ctxLookup_injected (body.context.getD []) _ _

/-- The welcome handler invokes the transport on nothing, or exactly on the
welcome mailOptions. -/
theorem sendWelcomeEmail_trace (cfg : Config) (year : Int) (transport : Transport)
    (body : ReqBody) :
    (sendWelcomeEmail cfg year transport body).2 = [] ∨
    (sendWelcomeEmail cfg year transport body).2 =
      [welcomeMailOptions cfg year body] := by
  unfold sendWelcomeEmail
  split
  · exact Or.inl rfl
  · cases h : transport (welcomeMailOptions cfg year body) <;> simp [h]

/-- The custom handler invokes the transport on nothing, or exactly on the
custom mailOptions. -/
theorem sendEmail_trace (cfg : Config) (year : Int) (transport : Transport)
    (body : ReqBody) :
    (sendEmail cfg year transport body).2 = [] ∨
    (sendEmail cfg year transport body).2 =
      [customMailOptions cfg year body] := by
  unfold sendEmail
  split
  · exact Or.inl rfl
  · cases h : transport (customMailOptions cfg year body) <;> simp [h]

/-- C1: on either endpoint, every rendered context handed to the transport
binds company_name to the configured company name and current_year to the
wall-clock year; since the caller body is quantified freely, including
caller contexts that bind company_name or current_year themselves, the
system-injected values overwrite any caller-supplied entry of the same
name. -/
theorem injected_keys_always_win (cfg : Config) (year : Int)
    (transport : Transport) (wb cb : ReqBody) (o1 o2 : MailOptions)
    (h1 : o1 ∈ (sendWelcomeEmail cfg year transport wb).2)
    (h2 : o2 ∈ (sendEmail cfg year transport cb).2) :
    (ctxLookup o1.context "company_name" = some (envString cfg.companyName) ∧
     ctxLookup o1.context "current_year" = some (JSVal.num year)) ∧
    (ctxLookup o2.context "company_name" = some (envString cfg.companyName) ∧
     ctxLookup o2.context "current_year" = some (JSVal.num year)) := by
  constructor
  · rcases sendWelcomeEmail_trace cfg year transport wb with h | h <;> rw [h] at h1
    · simp at h1
    · rw [List.mem_singleton] at h1
      subst h1
      exact welcome_ctx_injected cfg year wb
  · rcases sendEmail_trace cfg year transport cb with h | h <;> rw [h] at h2
    · simp at h2
    · rw [List.mem_singleton] at h2
      subst h2
      exact custom_ctx_injected cfg year cb

/-- Concrete run of injected_keys_always_win: the sample custom body spoofs
company_name as Evil Corp, yet the contexts handed to the transport carry
the configured name Acme and the year 2025. -/
theorem injected_keys_always_win_witness :
    (ctxLookup (welcomeMailOptions cfg0 2025 wbody0).context "company_name" =
        some (envString cfg0.companyName) ∧
     ctxLookup (welcomeMailOptions cfg0 2025 wbody0).context "current_year" =
        some (JSVal.num 2025)) ∧
    (ctxLookup (customMailOptions cfg0 2025 cbody0).context "company_name" =
        some (envString cfg0.companyName) ∧
     ctxLookup (customMailOptions cfg0 2025 cbody0).context "current_year" =
        some (JSVal.num 2025)) :=
  injected_keys_always_win cfg0 2025 okTransport wbody0 cbody0
    (welcomeMailOptions cfg0 2025 wbody0) (customMailOptions cfg0 2025 cbody0)
    (by decide) (by decide)

/-- C5: the welcome message takes fromAddr and replyTo from configuration
(never from the request), to from the request, the fixed subject literal,
the fixed template name welcome, and a context of exactly the four keys
username, verification_link, company_name and current_year with the stated
values; two bodies agreeing on to, username and verificationLink produce
the same message, so no other caller field participates. -/
theorem welcome_message_shape (cfg : Config) (year : Int) (b b1 b2 : ReqBody)
    (h1 : b1.to = b2.to) (h2 : b1.username = b2.username)
    (h3 : b1.verificationLink = b2.verificationLink) :
    (welcomeMailOptions cfg year b).fromAddr = envString cfg.emailFrom ∧
    (welcomeMailOptions cfg year b).replyTo = envString cfg.emailReplyTo ∧
    (welcomeMailOptions cfg year b).to = b.to.getD "" ∧
    (welcomeMailOptions cfg year b).subject = "Welcome to Our Platform!" ∧
    (welcomeMailOptions cfg year b).template = "welcome" ∧
    (welcomeMailOptions cfg year b).context =
      [("username", envString b.username),
       ("verification_link", JSVal.str (orHash b.verificationLink)),
       ("company_name", envString cfg.companyName),
       ("current_year", JSVal.num year)] ∧
    welcomeMailOptions cfg year b1 = welcomeMailOptions cfg year b2 := by
  refine ⟨rfl, rfl, rfl, rfl, rfl, rfl, ?_⟩
  simp [welcomeMailOptions, h1, h2, h3]

/-- Concrete run of welcome_message_shape at the sample body. -/
theorem welcome_message_shape_witness :
    wbody0.to = wbody0.to ∧
    (welcomeMailOptions cfg0 2025 wbody0).subject = "Welcome to Our Platform!" ∧
    (welcomeMailOptions cfg0 2025 wbody0).template = "welcome" :=
  ⟨rfl, (welcome_message_shape cfg0 2025 wbody0 wbody0 wbody0 rfl rfl rfl).2.2.2.1,
    (welcome_message_shape cfg0 2025 wbody0 wbody0 wbody0 rfl rfl rfl).2.2.2.2.1⟩

/-- C6 counterexample: with COMPANY_NAME unset, the context handed to the
transport binds company_name to the JS undefined value — there is no
fallback to a fixed default string anywhere in the code, so the entry is
not a defined string. -/
theorem company_name_no_fallback_counterexample :
    ctxLookup (welcomeMailOptions cfgEmpty 2025 wbody0).context "company_name" =
      some JSVal.undef ∧
    ctxLookup (customMailOptions cfgEmpty 2025 cbody0).context "company_name" =
      some JSVal.undef := by
  constructor <;> decide

/-- C6 (amended): the Context Builder always binds company_name, verbatim,
to the configured company name; when that configuration value is unset the
binding is the undefined value — no fallback default string is applied. -/
theorem company_name_verbatim (cfg : Config) (year : Int) (b : ReqBody) :
    ctxLookup (welcomeMailOptions cfg year b).context "company_name" =
      some (envString cfg.companyName) ∧
    ctxLookup (customMailOptions cfg year b).context "company_name" =
      some (envString cfg.companyName) ∧
    ctxLookup (welcomeMailOptions { cfg with companyName := none } year b).context
      "company_name" = some JSVal.undef ∧
    ctxLookup (customMailOptions { cfg with companyName := none } year b).context
      "company_name" = some JSVal.undef :=
  ⟨(welcome_ctx_injected cfg year b).1, (custom_ctx_injected cfg year b).1,
   (welcome_ctx_injected { cfg with companyName := none } year b).1,
   (custom_ctx_injected { cfg with companyName := none } year b).1⟩

/-- C7: the transporter secure flag is true exactly when EMAIL_SECURE is
the exact string true; every other value, absence included, yields false. -/
theorem secure_iff_exact_string (cfg : Config) :
    transporterSecure cfg = true ↔ cfg.emailSecure = some "true" := by
  simp [transporterSecure]

/-- C9: a verificationLink that is present but empty yields the placeholder
in the context, exactly as an absent one does — substitution triggers on
falsiness of the value, not only on absence of the field. -/
theorem empty_verification_link_placeholder (cfg : Config) (year : Int) (b : ReqBody) :
    ctxLookup (welcomeMailOptions cfg year
      { b with verificationLink := some "" }).context "verification_link" =
      some (JSVal.str "#") ∧
    ctxLookup (welcomeMailOptions cfg year
      { b with verificationLink := none }).context "verification_link" =
      some (JSVal.str "#") := by
  constructor <;> simp [welcomeMailOptions, ctxLookup, orHash]

/-- C2: a welcome request with to or username absent or empty, and a custom
request with any of to, subject or template absent or empty, get the 400
Missing required fields response, and the transport is never invoked (the
invocation trace is empty): validation short-circuits before the
mailOptions object, its context included, is ever built. -/
theorem validation_short_circuits (cfg : Config) (year : Int)
    (transport : Transport) (wb cb : ReqBody)
    (hw : falsy wb.to = true ∨ falsy wb.username = true)
    (hc : falsy cb.to = true ∨ falsy cb.subject = true ∨ falsy cb.template = true) :
    sendWelcomeEmail cfg year transport wb =
      (⟨400, ResponseBody.failure "Missing required fields"
          "Both \"to\" and \"username\" are required fields"⟩, []) ∧
    sendEmail cfg year transport cb =
      (⟨400, ResponseBody.failure "Missing required fields"
          "\"to\", \"subject\", and \"template\" are required fields"⟩, []) := by
  constructor
  · have h : (falsy wb.to || falsy wb.username) = true := by
      rcases hw with h | h <;> simp [h]
    simp [sendWelcomeEmail, h]
  · have h : (falsy cb.to || falsy cb.subject || falsy cb.template) = true := by
      rcases hc with h | h | h <;> simp [h]
    simp [sendEmail, h]

/-- Concrete run of validation_short_circuits: a welcome body without a
username and a custom body with an empty subject each get a 400 and an
empty transport trace. -/
theorem validation_short_circuits_witness :
    falsy ({ wbody0 with username := none } : ReqBody).username = true ∧
    falsy ({ cbody0 with subject := some "" } : ReqBody).subject = true ∧
    sendWelcomeEmail cfg0 2025 okTransport { wbody0 with username := none } =
      (⟨400, ResponseBody.failure "Missing required fields"
          "Both \"to\" and \"username\" are required fields"⟩, []) ∧
    sendEmail cfg0 2025 okTransport { cbody0 with subject := some "" } =
      (⟨400, ResponseBody.failure "Missing required fields"
          "\"to\", \"subject\", and \"template\" are required fields"⟩, []) :=
  ⟨by decide, by decide,
   (validation_short_circuits cfg0 2025 okTransport
      { wbody0 with username := none } { cbody0 with subject := some "" }
      (Or.inr (by decide)) (Or.inr (Or.inl (by decide)))).1,
   (validation_short_circuits cfg0 2025 okTransport
      { wbody0 with username := none } { cbody0 with subject := some "" }
      (Or.inr (by decide)) (Or.inr (Or.inl (by decide)))).2⟩

/-- C3: a request that passes validation and whose transport call succeeds
with message id m gets status 200 and the success body carrying the fixed
success string, messageId m and recipient exactly the request to field. -/
theorem success_response_shape (cfg : Config) (year : Int) (transport : Transport)
    (wb cb : ReqBody) (mw mc tw tc : String)
    (hwt : wb.to = some tw) (hwv : falsy wb.to = false)
    (hwu : falsy wb.username = false)
    (hwm : transport (welcomeMailOptions cfg year wb) = Except.ok mw)
    (hct : cb.to = some tc) (hcv : falsy cb.to = false)
    (hcs : falsy cb.subject = false) (hcp : falsy cb.template = false)
    (hcm : transport (customMailOptions cfg year cb) = Except.ok mc) :
    sendWelcomeEmail cfg year transport wb =
      (⟨200, ResponseBody.success "Welcome email sent successfully" mw tw⟩,
        [welcomeMailOptions cfg year wb]) ∧
    sendEmail cfg year transport cb =
      (⟨200, ResponseBody.success "Email sent successfully" mc tc⟩,
        [customMailOptions cfg year cb]) := by
  constructor
  · have hto : (welcomeMailOptions cfg year wb).to = tw := by
      simp [welcomeMailOptions, hwt]
    simp [sendWelcomeEmail, hwv, hwu, hwm, hto]
  · have hto : (customMailOptions cfg year cb).to = tc := by
      simp [customMailOptions, hct]
    simp [sendEmail, hcv, hcs, hcp, hcm, hto]

/-- Concrete run of success_response_shape: the end-to-end welcome scenario
of the spec, against the transport stub that always succeeds with msg-1,
and the analogous custom send. -/
theorem success_response_shape_witness :
    wbody0.to = some "user@example.com" ∧
    sendWelcomeEmail cfg0 2025 okTransport wbody0 =
      (⟨200, ResponseBody.success "Welcome email sent successfully" "msg-1"
          "user@example.com"⟩, [welcomeMailOptions cfg0 2025 wbody0]) ∧
    sendEmail cfg0 2025 okTransport cbody0 =
      (⟨200, ResponseBody.success "Email sent successfully" "msg-1"
          "user@example.com"⟩, [customMailOptions cfg0 2025 cbody0]) :=
  ⟨rfl,
   (success_response_shape cfg0 2025 okTransport wbody0 cbody0 "msg-1" "msg-1"
      "user@example.com" "user@example.com" rfl (by decide) (by decide) rfl
      rfl (by decide) (by decide) (by decide) rfl).1,
   (success_response_shape cfg0 2025 okTransport wbody0 cbody0 "msg-1" "msg-1"
      "user@example.com" "user@example.com" rfl (by decide) (by decide) rfl
      rfl (by decide) (by decide) (by decide) rfl).2⟩

/-- C4: a request that passes validation but whose template resolution,
rendering or transport call fails with detail d (all three stages happen
inside the transport call, whose error message is d) gets status 500 with
error Email sending failed and message exactly d, verbatim; the handler
returns this response rather than rethrowing, and the trace shows exactly
one transport invocation, so nothing is retried. -/
theorem failure_response_shape (cfg : Config) (year : Int) (transport : Transport)
    (wb cb : ReqBody) (dw dc : String)
    (hwv : falsy wb.to = false) (hwu : falsy wb.username = false)
    (hwm : transport (welcomeMailOptions cfg year wb) = Except.error dw)
    (hcv : falsy cb.to = false) (hcs : falsy cb.subject = false)
    (hcp : falsy cb.template = false)
    (hcm : transport (customMailOptions cfg year cb) = Except.error dc) :
    sendWelcomeEmail cfg year transport wb =
      (⟨500, ResponseBody.failure "Email sending failed" dw⟩,
        [welcomeMailOptions cfg year wb]) ∧
    sendEmail cfg year transport cb =
      (⟨500, ResponseBody.failure "Email sending failed" dc⟩,
        [customMailOptions cfg year cb]) := by
  constructor
  · simp [sendWelcomeEmail, hwv, hwu, hwm]
  · simp [sendEmail, hcv, hcs, hcp, hcm]

/-- Concrete run of failure_response_shape: a failing transport whose error
detail is an authentication failure string surfaces verbatim in a 500
response, after exactly one invocation. -/
theorem failure_response_shape_witness :
    falsy wbody0.to = false ∧
    sendWelcomeEmail cfg0 2025 errTransport wbody0 =
      (⟨500, ResponseBody.failure "Email sending failed"
          "Invalid login: 535 Authentication failed"⟩,
        [welcomeMailOptions cfg0 2025 wbody0]) ∧
    sendEmail cfg0 2025 errTransport cbody0 =
      (⟨500, ResponseBody.failure "Email sending failed"
          "Invalid login: 535 Authentication failed"⟩,
        [customMailOptions cfg0 2025 cbody0]) :=
  ⟨by decide,
   (failure_response_shape cfg0 2025 errTransport wbody0 cbody0
      "Invalid login: 535 Authentication failed"
      "Invalid login: 535 Authentication failed"
      (by decide) (by decide) rfl (by decide) (by decide) (by decide) rfl).1,
   (failure_response_shape cfg0 2025 errTransport wbody0 cbody0
      "Invalid login: 535 Authentication failed"
      "Invalid login: 535 Authentication failed"
      (by decide) (by decide) rfl (by decide) (by decide) (by decide) rfl).2⟩

/-- C8: a request matching none of the three registered routes gets status
404 with error Route not found and a message naming the requested path. -/
theorem unknown_route_404 (cfg : Config) (year : Int) (transport : Transport)
    (nowIso : String) (req : Request)
    (h1 : ¬(req.method = Method.get ∧ req.path = "/health"))
    (h2 : ¬(req.method = Method.post ∧ req.path = "/send-welcome-email"))
    (h3 : ¬(req.method = Method.post ∧ req.path = "/send-email")) :
    app cfg year transport nowIso req =
      (⟨404, ResponseBody.failure "Route not found"
          ("The route " ++ req.path ++ " does not exist")⟩, []) := by
  simp [app, h1, h2, h3]

/-- Concrete run of unknown_route_404: GET /nope is a 404 naming /nope. -/
theorem unknown_route_404_witness :
    app cfg0 2025 okTransport "2025-10-11T00:00:00.000Z"
      ⟨Method.get, "/nope", wbody0⟩ =
      (⟨404, ResponseBody.failure "Route not found"
          ("The route " ++ "/nope" ++ " does not exist")⟩, []) :=
  unknown_route_404 cfg0 2025 okTransport "2025-10-11T00:00:00.000Z"
    ⟨Method.get, "/nope", wbody0⟩ (by decide) (by decide) (by decide)

/-- C10: holding the configuration, the wall-clock year, the transport and
the timestamp fixed, the response (and the transport-invocation trace) is a
deterministic function of the request: two invocations with equal requests
produce equal results. -/
theorem deterministic_responses (cfg : Config) (year : Int)
    (transport : Transport) (nowIso : String) (r1 r2 : Request)
    (h : r1 = r2) :
    app cfg year transport nowIso r1 = app cfg year transport nowIso r2 := by
  rw [h]

/-- Concrete run of deterministic_responses on the sample welcome request. -/
theorem deterministic_responses_witness :
    app cfg0 2025 okTransport "2025-10-11T00:00:00.000Z"
      ⟨Method.post, "/send-welcome-email", wbody0⟩ =
    app cfg0 2025 okTransport "2025-10-11T00:00:00.000Z"
      ⟨Method.post, "/send-welcome-email", wbody0⟩ :=
  deterministic_responses cfg0 2025 okTransport "2025-10-11T00:00:00.000Z"
    ⟨Method.post, "/send-welcome-email", wbody0⟩
    ⟨Method.post, "/send-welcome-email", wbody0⟩ rfl
